import Mathlib

/-!
# RangeGuard — Geometric Conflict Detection & Notification Fan-out Engine

A shallow embedding of the core logic of `src/backend/server.py`:

* the conflict classifier `check_route_against_zones` (lines 514–561),
* the on-demand check endpoint `check_intersection` (lines 563–614),
* the zone activity filter (the Mongo query of lines 269–272 / 579–582),
* the zone buffer builder `compute_buffer` (lines 219–229),
* the two fan-out entry points `check_routes_against_new_zone`
  (lines 669–744) and `check_uploaded_route_against_zones`
  (lines 746–808), and the fan-out guard of `upload_route`
  (lines 384–388).

The planar geometry library (shapely) is an external collaborator: its
per-pair call results are captured in the record `PairGeom`, together
with a consistency predicate `PairGeom.Consistent` stating the basic
planar facts relating those results (the raw polygon is a subset of its
buffer, intersection lengths are bounded by the route length, …).  A
small exact model of the kernel — axis-aligned rectangle zones and
horizontal-segment routes, over ℚ — instantiates `PairGeom` on concrete
scenes and is proved to satisfy `Consistent`, so every concrete witness
and counterexample below is realized by genuine planar geometry.
-/

/-- Python's `round` to an integer: round half to even (banker's
rounding), as used by `round(x, 1)` in the overlap computation. -/
def roundHalfEven (q : ℚ) : ℤ :=
  let f := ⌊q⌋
  let r := q - (f : ℚ)
  if r < 1/2 then f
  else if 1/2 < r then f + 1
  else if f % 2 = 0 then f else f + 1

/-- Python's `round(x, 1)`: round to one decimal place, ties to even. -/
def pyRound1 (q : ℚ) : ℚ := (roundHalfEven (q * 10) : ℚ) / 10

/-- The three conflict labels produced by the classifier
(`"contained"`, `"buffer"`, `"intersects"` in the source). -/
inductive ConflictType where
  | contained
  | buffer
  | intersects
deriving DecidableEq, Repr

/-- Results of the shapely calls made for one (route, zone) pair in
`check_route_against_zones` and the fan-out loops.  `interRawLength`
(the length of the route's intersection with the raw polygon) is never
requested by the source — the source intersects with the buffered
polygon in every branch — but is recorded here so that its use, as the
specification prescribes it, can be compared against the source. -/
structure PairGeom where
  /-- `original_zone_shape.contains(route_shape)` -/
  rawContainsRoute : Bool
  /-- `zone_shape.contains(route_shape)` (buffered polygon) -/
  bufContainsRoute : Bool
  /-- `route_shape.intersects(zone_shape)` (buffered polygon) -/
  routeIntersectsBuf : Bool
  /-- `original_zone_shape.intersects(route_shape)` -/
  rawIntersectsRoute : Bool
  /-- `route_shape.intersection(zone_shape).length` (buffered polygon) -/
  interBufLength : ℚ
  /-- length of the route's intersection with the raw polygon -/
  interRawLength : ℚ
  /-- `route_shape.length` -/
  routeLength : ℚ
deriving DecidableEq, Repr

/-- Planar-geometry consistency of a recorded pair: the buffered polygon
is a superset of the raw polygon, containment forces full-length
intersection, non-intersection forces empty intersection, and all
lengths are non-negative and bounded by the route length. -/
def PairGeom.Consistent (g : PairGeom) : Prop :=
  0 ≤ g.routeLength ∧
  0 ≤ g.interRawLength ∧
  0 ≤ g.interBufLength ∧
  g.interRawLength ≤ g.interBufLength ∧
  g.interBufLength ≤ g.routeLength ∧
  (g.rawContainsRoute = true → g.bufContainsRoute = true) ∧
  (g.rawIntersectsRoute = true → g.routeIntersectsBuf = true) ∧
  (g.routeIntersectsBuf = false → g.interBufLength = 0) ∧
  (g.rawIntersectsRoute = false → g.interRawLength = 0) ∧
  (g.bufContainsRoute = true → g.interBufLength = g.routeLength) ∧
  (g.rawContainsRoute = true → g.interRawLength = g.routeLength) ∧
  (g.bufContainsRoute = true → g.routeIntersectsBuf = true)

instance (g : PairGeom) : Decidable g.Consistent := by
  unfold PairGeom.Consistent; infer_instance

/-- The denominator `route_length = route_shape.length if
route_shape.length > 0 else 1` (the division-by-zero floor of lines
536, 542, 691, 778). -/
def effectiveRouteLength (g : PairGeom) : ℚ :=
  if 0 < g.routeLength then g.routeLength else 1

/-- The shared overlap-percentage expression of the source:
`min(round((overlap_length / route_length) * 100, 1), 100)`. -/
def overlapPct (overlap_length route_length : ℚ) : ℚ :=
  min (pyRound1 (overlap_length / route_length * 100)) 100

/-- The per-pair body of `check_route_against_zones` (lines 519–544):
classify one (route, zone) pair and compute its overlap percentage.
`none` means the pair produced no conflict entry.  Note that BOTH the
`buffer` and the `intersects` branches measure the intersection against
the buffered polygon (`zone_shape`), exactly as the source does. -/
def classifyPair (g : PairGeom) : Option (ConflictType × ℚ) :=
  let is_contained := g.rawContainsRoute || g.bufContainsRoute
  let is_intersecting := g.routeIntersectsBuf
  let is_within_buffer := !g.rawIntersectsRoute && g.routeIntersectsBuf
  if is_contained || is_intersecting then
    if is_contained then
      some (ConflictType.contained, 100)
    else if is_within_buffer then
      some (ConflictType.buffer, overlapPct g.interBufLength (effectiveRouteLength g))
    else
      some (ConflictType.intersects, overlapPct g.interBufLength (effectiveRouteLength g))
  else
    none

/-- The overlap percentage as §4.3 of the specification words it for the
`Intersects` verdict: measured against the RAW polygon.  Stated from the
specification only, for comparison with `classifyPair`. -/
def specIntersectsOverlap (g : PairGeom) : ℚ :=
  min (pyRound1 (g.interRawLength / effectiveRouteLength g * 100)) 100

-- ==================== exact kernel model: rectangles × horizontal segments ====================

/-- An axis-aligned rectangle zone polygon `[x0,x1] × [y0,y1]` (closed),
an exactly computable instance of the planar kernel's polygons. -/
structure Rect where
  x0 : ℚ
  x1 : ℚ
  y0 : ℚ
  y1 : ℚ
deriving DecidableEq, Repr

/-- A horizontal route segment at height `y` from `xa` to `xb`; its
Euclidean length `xb - xa` is exact over ℚ. -/
structure HSeg where
  y : ℚ
  xa : ℚ
  xb : ℚ
deriving DecidableEq, Repr

/-- Axis-aligned dilation of a rectangle by `d` (the kernel's buffer on
configurations whose routes meet the buffered region on its flat sides,
where the rounded corners of the true dilation play no role). -/
def Rect.buffer (r : Rect) (d : ℚ) : Rect :=
  ⟨r.x0 - d, r.x1 + d, r.y0 - d, r.y1 + d⟩

/-- Closed containment of a horizontal segment in a rectangle. -/
def Rect.containsSeg (r : Rect) (s : HSeg) : Bool :=
  decide (r.y0 ≤ s.y) && decide (s.y ≤ r.y1) &&
  decide (r.x0 ≤ s.xa) && decide (s.xb ≤ r.x1)

/-- Non-empty intersection of a horizontal segment with a rectangle. -/
def Rect.intersectsSeg (r : Rect) (s : HSeg) : Bool :=
  decide (r.y0 ≤ s.y) && decide (s.y ≤ r.y1) &&
  decide (s.xa ≤ r.x1) && decide (r.x0 ≤ s.xb)

/-- Length of the intersection of a horizontal segment with a
rectangle: the clipped x-extent when the height lies in the band. -/
def Rect.interLen (r : Rect) (s : HSeg) : ℚ :=
  if r.y0 ≤ s.y ∧ s.y ≤ r.y1 then max 0 (min s.xb r.x1 - max s.xa r.x0) else 0

/-- Euclidean length of a horizontal segment. -/
def HSeg.len (s : HSeg) : ℚ := s.xb - s.xa

/-- The kernel call results for a rectangle zone with buffer distance
`d` against a horizontal-segment route. -/
def pairGeomOf (r : Rect) (d : ℚ) (s : HSeg) : PairGeom where
  rawContainsRoute := r.containsSeg s
  bufContainsRoute := (r.buffer d).containsSeg s
  routeIntersectsBuf := (r.buffer d).intersectsSeg s
  rawIntersectsRoute := r.intersectsSeg s
  interBufLength := (r.buffer d).interLen s
  interRawLength := r.interLen s
  routeLength := s.len

-- ==================== on-demand check ====================

/-- One entry of the conflicts list built by
`check_route_against_zones` (lines 546–557), reduced to the fields the
downstream logic reads (`conflict_type` and `overlap_percentage`). -/
structure Conflict where
  conflict_type : ConflictType
  overlap_percentage : ℚ
deriving DecidableEq, Repr

/-- What one zone of the batch contributes to the conflicts list: the
`try` body succeeds with the pair's kernel results, or raises.  An
exception yields no entry and the loop continues (lines 558–560); a
successful classification appends its entry. -/
def conflictsOfZone (z : Except String PairGeom) : List Conflict :=
  match z with
  | Except.error _ => []
  | Except.ok g =>
    match classifyPair g with
    | some (t, p) => [⟨t, p⟩]
    | none => []

/-- The batch loop `check_route_against_zones` (lines 514–561): fold the per-zone
classification over the batch of active zones, isolating per-pair
geometry errors. -/
def check_route_against_zones (active_zones : List (Except String PairGeom)) :
    List Conflict :=
  active_zones.flatMap conflictsOfZone

/-- The summary strings of `check_intersection` (lines 588, 602–608). -/
def criticalMsg : String := "CRITICAL: Your entire route is inside an active hunting zone!"

/-- WARNING summary string (line 604). -/
def warningMsg : String := "WARNING: Your route crosses active hunting zones!"

/-- CAUTION summary string (line 606). -/
def cautionMsg : String := "CAUTION: Your route enters a buffer/safety zone near hunting areas."

/-- Safe summary string for a conflict-free batch (line 608). -/
def safeMsg : String := "Safe: No conflicts with active hunting zones."

/-- Safe summary string for an empty active-zone batch (line 588). -/
def noZonesMsg : String := "No active hunting zones at the selected time."

/-- The response of the on-demand check (`IntersectionResult`). -/
structure IntersectionResult where
  intersects : Bool
  zones : List Conflict
  safe_message : String
deriving DecidableEq, Repr

/-- The endpoint `check_intersection` (lines 563–614) after the active zones have
been fetched: early-return on an empty batch, otherwise classify every
zone and derive the worst-case summary message.  `intersects` is
`len(conflicts) > 0` (line 611). -/
def check_intersection (active_zones : List (Except String PairGeom)) :
    IntersectionResult :=
  if active_zones.isEmpty then
    ⟨false, [], noZonesMsg⟩
  else
    let conflicts := check_route_against_zones active_zones
    let has_contained := conflicts.any fun c => decide (c.conflict_type = ConflictType.contained)
    let has_intersect := conflicts.any fun c => decide (c.conflict_type = ConflictType.intersects)
    let msg :=
      if has_contained then criticalMsg
      else if has_intersect then warningMsg
      else if !conflicts.isEmpty then cautionMsg
      else safeMsg
    ⟨!conflicts.isEmpty, conflicts, msg⟩

-- ==================== zone activity index ====================

/-- The time-interval fields of a zone document, compared as canonical
ISO timestamp strings. -/
structure ZoneRec where
  id : String
  start_time : String
  end_time : String
deriving DecidableEq, Repr

/-- The active-zone selection: the Mongo query
`{"start_time": {"$lte": t}, "end_time": {"$gte": t}}` of lines
269–272 and 579–582, as a filter over the zone set, with lexicographic
comparison of the timestamp strings. -/
def activeAt (zones : List ZoneRec) (instant : String) : List ZoneRec :=
  zones.filter fun z => decide (z.start_time ≤ instant) && decide (instant ≤ z.end_time)

/-- The listing endpoint `get_zones` (lines 261–275): the filter applies only when `active`
or an explicit `date` is requested; otherwise every zone is returned. -/
def get_zones (zones : List ZoneRec) (active : Bool) (date : Option String)
    (now : String) : List ZoneRec :=
  if active || date.isSome then activeAt zones (date.getD now) else zones

-- ==================== zone buffer builder ====================

/-- The zone buffer builder `compute_buffer` (lines 219–229), parameterized by the kernel's
fallible buffering operation (`shape` / `.buffer` / `mapping`): convert
meters to planar degrees by the fixed equatorial factor 111320 and fall
back to the raw geometry when the kernel raises. -/
def compute_buffer {α : Type} (bufferKernel : α → ℚ → Except String α)
    (geometry : α) (buffer_meters : ℚ) : α :=
  match bufferKernel geometry (buffer_meters / 111320) with
  | Except.ok buffered => buffered
  | Except.error _ => geometry

-- ==================== fan-out orchestrator ====================

/-- A notification draft produced by a fan-out run, reduced to the
fields the claims observe: the recipient, whether the recipient owns
the route, the conflict label stored in `notif_data`, and the overlap
percentage embedded in the message body. -/
structure Draft where
  user_id : String
  is_owner : Bool
  conflict_type : ConflictType
  overlap : ℚ
deriving DecidableEq, Repr

/-- One existing route as seen by the zone-creation fan-out: its owner
(`"anonymous"` sentinel for ownerless uploads), the users who
favorited it, and the outcome of evaluating its geometry against the
new zone. -/
structure RouteInfo where
  owner : String
  favoriters : List String
  geom : Except String PairGeom
deriving Repr

/-- The recipient set of lines 704–712: `users_to_notify = set()`, add
the owner unless anonymous, add every favoriter. -/
def recipients (r : RouteInfo) : List String :=
  ((if r.owner = "anonymous" then [] else [r.owner]) ++ r.favoriters).dedup

/-- The per-route body of `check_routes_against_new_zone` (lines
677–742): a draft for every recipient whenever the route is contained
in the zone or intersects its BUFFERED polygon (`is_intersecting` at
line 681 tests `zone_shape`, the buffered geometry); a geometry error
yields no drafts and the loop continues. -/
def draftsForRoute (r : RouteInfo) : List Draft :=
  match r.geom with
  | Except.error _ => []
  | Except.ok g =>
    let is_contained := g.rawContainsRoute || g.bufContainsRoute
    let is_intersecting := g.routeIntersectsBuf
    if is_contained || is_intersecting then
      let ct := if is_contained then ConflictType.contained else ConflictType.intersects
      let pct := if is_contained then (100 : ℚ)
                 else overlapPct g.interBufLength (effectiveRouteLength g)
      (recipients r).map fun uid => ⟨uid, decide (uid = r.owner), ct, pct⟩
    else []

/-- The entry point `check_routes_against_new_zone` (lines 669–744): the zone-creation
fan-out over every existing route. -/
def check_routes_against_new_zone (all_routes : List RouteInfo) : List Draft :=
  all_routes.flatMap draftsForRoute

/-- The per-zone body of `check_uploaded_route_against_zones` (lines
757–806): one draft addressed to the uploader whenever the route is
contained in the zone or intersects its buffered polygon; a geometry
error yields no draft and the loop continues. -/
def uploadDraftForZone (user_id : String) (z : Except String PairGeom) : List Draft :=
  match z with
  | Except.error _ => []
  | Except.ok g =>
    let is_contained := g.rawContainsRoute || g.bufContainsRoute
    let is_intersecting := g.routeIntersectsBuf
    if is_contained || is_intersecting then
      let ct := if is_contained then ConflictType.contained else ConflictType.intersects
      let pct := if is_contained then (100 : ℚ)
                 else overlapPct g.interBufLength (effectiveRouteLength g)
      [⟨user_id, true, ct, pct⟩]
    else []

/-- The entry point `check_uploaded_route_against_zones` (lines 746–808): the
route-upload fan-out over every current-or-future zone. -/
def check_uploaded_route_against_zones (user_id : String)
    (all_zones : List (Except String PairGeom)) : List Draft :=
  all_zones.flatMap (uploadDraftForZone user_id)

/-- The fan-out decision of `upload_route` (lines 369, 384–388):
`user_id = user["id"] if user else "anonymous"`, and the background
check task is created only `if user and user_id != "anonymous"`.  The
first component records whether `check_uploaded_route_against_zones`
is invoked at all; the second is the resulting draft list. -/
def uploadRouteFanout (user : Option String)
    (all_zones : List (Except String PairGeom)) : Bool × List Draft :=
  match user with
  | none => (false, [])
  | some uid =>
    if uid = "anonymous" then (false, [])
    else (true, check_uploaded_route_against_zones uid all_zones)

-- ==================== concrete scenes ====================

/-- A concrete zone polygon: the rectangle `[0,100] × [0,10]`. -/
def rect0 : Rect := ⟨0, 100, 0, 10⟩

/-- A route entering `rect0` from far inside its left buffer: at height
5, from x = −30 to x = 10 (buffer distance 10 ⇒ buffered x-extent
[−10, 110]).  It spends 10 units in the raw zone but 20 units in the
buffered zone, out of a total length of 40. -/
def segEnter : HSeg := ⟨5, -30, 10⟩

/-- A route touching only the buffer ring of `rect0` (buffer 10): at
height 5, from x = −15 to x = −5 — disjoint from the raw zone, half of
it inside the buffered zone. -/
def segBufOnly : HSeg := ⟨5, -15, -5⟩

/-- A route fully inside the raw zone `rect0`. -/
def segInside : HSeg := ⟨5, 20, 40⟩

/-- A degenerate route: two coincident points inside `rect0`. -/
def segDegen : HSeg := ⟨5, 30, 30⟩

/-- Kernel results of `segEnter` against `rect0` with buffer 10. -/
def gEnter : PairGeom := pairGeomOf rect0 10 segEnter

/-- Kernel results of `segBufOnly` against `rect0` with buffer 10. -/
def gBufOnly : PairGeom := pairGeomOf rect0 10 segBufOnly

/-- Kernel results of `segInside` against `rect0` with buffer 10. -/
def gInside : PairGeom := pairGeomOf rect0 10 segInside

/-- Kernel results of `segDegen` against `rect0` with buffer 10. -/
def gDegen : PairGeom := pairGeomOf rect0 10 segDegen

/-- An owned, unfavorited route whose geometry touches only the buffer
ring of the new zone. -/
def routeBufOnly : RouteInfo := ⟨"u1", [], Except.ok gBufOnly⟩

-- ==================== kernel model consistency ====================

/-- The intersection length of the exact kernel model is non-negative. -/
theorem interLen_nonneg (r : Rect) (s : HSeg) : 0 ≤ r.interLen s := by
  unfold Rect.interLen
  split
  · exact le_max_left _ _
  · exact le_refl 0

/-- The intersection length is bounded by the route length. -/
theorem interLen_le_len (r : Rect) (s : HSeg) (hs : s.xa ≤ s.xb) :
    r.interLen s ≤ s.len := by
  unfold Rect.interLen HSeg.len
  split
  · apply max_le (by linarith)
    have h1 : min s.xb r.x1 ≤ s.xb := min_le_left _ _
    have h2 : s.xa ≤ max s.xa r.x0 := le_max_left _ _
    linarith
  · linarith

/-- A contained segment intersects the rectangle in its full length. -/
theorem containsSeg_interLen (r : Rect) (s : HSeg) (hs : s.xa ≤ s.xb)
    (h : r.containsSeg s = true) : r.interLen s = s.len := by
  unfold Rect.containsSeg at h
  simp only [Bool.and_eq_true, decide_eq_true_eq] at h
  obtain ⟨⟨⟨h1, h2⟩, h3⟩, h4⟩ := h
  unfold Rect.interLen HSeg.len
  rw [if_pos ⟨h1, h2⟩, min_eq_left h4, max_eq_left h3]
  exact max_eq_right (by linarith)

/-- A segment not meeting the rectangle has empty intersection. -/
theorem not_intersectsSeg_interLen (r : Rect) (s : HSeg)
    (h : r.intersectsSeg s = false) : r.intersectsSeg s = true → False := by
  intro h'
  rw [h] at h'
  exact Bool.false_ne_true h'

/-- A segment not meeting the rectangle has intersection length zero. -/
theorem interLen_eq_zero_of_not_intersects (r : Rect) (s : HSeg)
    (h : r.intersectsSeg s = false) : r.interLen s = 0 := by
  unfold Rect.intersectsSeg at h
  unfold Rect.interLen
  split
  case isTrue hb =>
    obtain ⟨hy0, hy1⟩ := hb
    simp only [decide_eq_true hy0, decide_eq_true hy1, Bool.true_and,
      Bool.and_eq_false_iff, decide_eq_false_iff_not, not_le] at h
    rcases h with h | h
    · exact max_eq_left (by linarith [min_le_right s.xb r.x1, le_max_left s.xa r.x0])
    · exact max_eq_left (by linarith [min_le_left s.xb r.x1, le_max_right s.xa r.x0])
  case isFalse => rfl

/-- Every scene of the exact kernel model yields consistent pair data:
the oracle record `PairGeom` used throughout is realized by genuine
planar geometry for any well-formed rectangle, segment, and buffer. -/
theorem pairGeomOf_consistent (r : Rect) (d : ℚ) (s : HSeg)
    (hs : s.xa ≤ s.xb) (hd : 0 ≤ d) :
    (pairGeomOf r d s).Consistent := by
  have hbuf : r.buffer d = ⟨r.x0 - d, r.x1 + d, r.y0 - d, r.y1 + d⟩ := rfl
  refine ⟨by simpa [pairGeomOf, HSeg.len] using hs,
    interLen_nonneg r s, interLen_nonneg (r.buffer d) s, ?_,
    interLen_le_len (r.buffer d) s hs, ?_, ?_, ?_, ?_,
    fun h => containsSeg_interLen (r.buffer d) s hs h,
    fun h => containsSeg_interLen r s hs h, ?_⟩
  · -- raw intersection length ≤ buffered intersection length
    show r.interLen s ≤ (r.buffer d).interLen s
    unfold Rect.interLen
    rw [hbuf]
    split
    case isTrue hband =>
      obtain ⟨hb0, hb1⟩ := hband
      rw [if_pos ⟨by dsimp; linarith, by dsimp; linarith⟩]
      apply max_le_max (le_refl 0)
      have h1 : min s.xb r.x1 ≤ min s.xb (r.x1 + d) :=
        min_le_min (le_refl _) (by linarith)
      have h2 : max s.xa (r.x0 - d) ≤ max s.xa r.x0 :=
        max_le_max (le_refl _) (by linarith)
      dsimp
      linarith
    case isFalse =>
      exact le_trans (le_refl 0) (interLen_nonneg ⟨r.x0 - d, r.x1 + d, r.y0 - d, r.y1 + d⟩ s)
  · -- raw containment implies buffered containment
    intro h
    have h : r.containsSeg s = true := h
    show (r.buffer d).containsSeg s = true
    unfold Rect.containsSeg at h ⊢
    rw [hbuf]
    simp only [Bool.and_eq_true, decide_eq_true_eq] at h ⊢
    obtain ⟨⟨⟨h1, h2⟩, h3⟩, h4⟩ := h
    exact ⟨⟨⟨by linarith, by linarith⟩, by linarith⟩, by linarith⟩
  · -- raw intersection implies buffered intersection
    intro h
    have h : r.intersectsSeg s = true := h
    show (r.buffer d).intersectsSeg s = true
    unfold Rect.intersectsSeg at h ⊢
    rw [hbuf]
    simp only [Bool.and_eq_true, decide_eq_true_eq] at h ⊢
    obtain ⟨⟨⟨h1, h2⟩, h3⟩, h4⟩ := h
    exact ⟨⟨⟨by linarith, by linarith⟩, by linarith⟩, by linarith⟩
  · -- no buffered intersection ⇒ zero buffered intersection length
    exact fun h => interLen_eq_zero_of_not_intersects (r.buffer d) s h
  · -- no raw intersection ⇒ zero raw intersection length
    exact fun h => interLen_eq_zero_of_not_intersects r s h
  · -- buffered containment implies buffered intersection
    intro h
    have h : (r.buffer d).containsSeg s = true := h
    show (r.buffer d).intersectsSeg s = true
    unfold Rect.containsSeg at h
    unfold Rect.intersectsSeg
    simp only [Bool.and_eq_true, decide_eq_true_eq] at h ⊢
    obtain ⟨⟨⟨h1, h2⟩, h3⟩, h4⟩ := h
    exact ⟨⟨⟨h1, h2⟩, by linarith⟩, by linarith⟩

-- ==================== scene evaluations ====================

/-- Kernel results of the entering route: not contained, intersects
both polygons, 20 of its 40 units inside the buffered polygon but only
10 inside the raw polygon. -/
theorem gEnter_eval : gEnter = ⟨false, false, true, true, 20, 10, 40⟩ := by
  simp only [gEnter, pairGeomOf, rect0, segEnter, Rect.buffer, Rect.containsSeg,
    Rect.intersectsSeg, Rect.interLen, HSeg.len]
  norm_num

/-- Kernel results of the buffer-only route: it meets the buffered
polygon (5 of its 10 units) but is disjoint from the raw polygon. -/
theorem gBufOnly_eval : gBufOnly = ⟨false, false, true, false, 5, 0, 10⟩ := by
  simp only [gBufOnly, pairGeomOf, rect0, segBufOnly, Rect.buffer, Rect.containsSeg,
    Rect.intersectsSeg, Rect.interLen, HSeg.len]
  norm_num

/-- Kernel results of the fully inside route. -/
theorem gInside_eval : gInside = ⟨true, true, true, true, 20, 20, 20⟩ := by
  simp only [gInside, pairGeomOf, rect0, segInside, Rect.buffer, Rect.containsSeg,
    Rect.intersectsSeg, Rect.interLen, HSeg.len]
  norm_num

/-- Kernel results of the degenerate (zero-length) route. -/
theorem gDegen_eval : gDegen = ⟨true, true, true, true, 0, 0, 0⟩ := by
  simp only [gDegen, pairGeomOf, rect0, segDegen, Rect.buffer, Rect.containsSeg,
    Rect.intersectsSeg, Rect.interLen, HSeg.len]
  norm_num

/-- The entering route is classified `intersects` with overlap 50
(20 buffered-overlap units out of 40). -/
theorem classify_gEnter : classifyPair gEnter = some (ConflictType.intersects, 50) := by
  rw [gEnter_eval]
  simp only [classifyPair, overlapPct, effectiveRouteLength, pyRound1, roundHalfEven]
  norm_num

/-- The specification formula on the same scene yields 25
(10 raw-overlap units out of 40). -/
theorem spec_overlap_gEnter : specIntersectsOverlap gEnter = 25 := by
  rw [gEnter_eval]
  simp only [specIntersectsOverlap, effectiveRouteLength, pyRound1, roundHalfEven]
  norm_num

/-- The buffer-only route is classified `buffer` with overlap 50. -/
theorem classify_gBufOnly : classifyPair gBufOnly = some (ConflictType.buffer, 50) := by
  rw [gBufOnly_eval]
  simp only [classifyPair, overlapPct, effectiveRouteLength, pyRound1, roundHalfEven]
  norm_num

/-- The inside route is classified `contained` with overlap 100. -/
theorem classify_gInside : classifyPair gInside = some (ConflictType.contained, 100) := by
  rw [gInside_eval]
  simp only [classifyPair]
  norm_num

/-- The degenerate route is classified `contained` with overlap 100. -/
theorem classify_gDegen : classifyPair gDegen = some (ConflictType.contained, 100) := by
  rw [gDegen_eval]
  simp only [classifyPair]
  norm_num

/-- The entering scene is geometrically consistent. -/
theorem gEnter_consistent : gEnter.Consistent :=
  pairGeomOf_consistent rect0 10 segEnter (by norm_num [segEnter]) (by norm_num)

/-- The buffer-only scene is geometrically consistent. -/
theorem gBufOnly_consistent : gBufOnly.Consistent :=
  pairGeomOf_consistent rect0 10 segBufOnly (by norm_num [segBufOnly]) (by norm_num)

/-- The inside scene is geometrically consistent. -/
theorem gInside_consistent : gInside.Consistent :=
  pairGeomOf_consistent rect0 10 segInside (by norm_num [segInside]) (by norm_num)

/-- The degenerate scene is geometrically consistent. -/
theorem gDegen_consistent : gDegen.Consistent :=
  pairGeomOf_consistent rect0 10 segDegen (by norm_num [segDegen]) (by norm_num)

/-- Fan-out drafts of the buffer-only route: the owner is notified,
with label `intersects`. -/
theorem drafts_routeBufOnly :
    draftsForRoute routeBufOnly = [⟨"u1", true, ConflictType.intersects, 50⟩] := by
  simp only [routeBufOnly, draftsForRoute, recipients, gBufOnly_eval, overlapPct,
    effectiveRouteLength, pyRound1, roundHalfEven]
  norm_num
  rw [if_neg (by decide : ¬("u1" = "anonymous"))]
  simp [List.dedup_cons_of_not_mem]

-- ==================== overlap-percentage bounds ====================

/-- The effective route length is always positive. -/
theorem effectiveRouteLength_pos (g : PairGeom) : 0 < effectiveRouteLength g := by
  unfold effectiveRouteLength
  split
  · assumption
  · norm_num

/-- Banker's rounding of a non-negative rational is non-negative. -/
theorem roundHalfEven_nonneg (q : ℚ) (h : 0 ≤ q) : 0 ≤ roundHalfEven q := by
  have hf : (0 : ℤ) ≤ ⌊q⌋ := Int.floor_nonneg.mpr h
  unfold roundHalfEven
  dsimp only
  split
  · exact hf
  · split
    · omega
    · split
      · exact hf
      · omega

/-- One-decimal rounding of a non-negative rational is non-negative. -/
theorem pyRound1_nonneg (q : ℚ) (h : 0 ≤ q) : 0 ≤ pyRound1 q := by
  unfold pyRound1
  have := roundHalfEven_nonneg (q * 10) (by positivity)
  positivity

/-- The source's overlap expression is non-negative whenever the
intersection length is non-negative and the denominator positive. -/
theorem overlapPct_nonneg (a b : ℚ) (ha : 0 ≤ a) (hb : 0 < b) :
    0 ≤ overlapPct a b := by
  unfold overlapPct
  have h : 0 ≤ a / b * 100 := by positivity
  exact le_min (pyRound1_nonneg _ h) (by norm_num)

/-- The source's overlap expression never exceeds 100. -/
theorem overlapPct_le_100 (a b : ℚ) : overlapPct a b ≤ 100 :=
  min_le_right _ _

/-- The source's overlap expression is an integer number of tenths. -/
theorem overlapPct_tenth (a b : ℚ) : ∃ n : ℤ, overlapPct a b = (n : ℚ) / 10 := by
  unfold overlapPct pyRound1
  rcases le_total ((roundHalfEven (a / b * 100 * 10) : ℚ) / 10) 100 with h | h
  · exact ⟨roundHalfEven (a / b * 100 * 10), min_eq_left h⟩
  · exact ⟨1000, by rw [min_eq_right h]; norm_num⟩

-- ==================== claims ====================

/-- C1 (counterexample): on a geometrically consistent scene whose
verdict is Intersects (the route touches the raw polygon and is not
contained), the classifier reports overlap 50 — the share of the route
inside the BUFFERED polygon — while the claimed formula, measured
against the raw polygon, yields 25.  The claim's overlap equation is
therefore false. -/
theorem C1_counterexample :
    gEnter.Consistent ∧
    gEnter.rawIntersectsRoute = true ∧
    classifyPair gEnter = some (ConflictType.intersects, 50) ∧
    specIntersectsOverlap gEnter = 25 ∧
    (50 : ℚ) ≠ 25 := by
  refine ⟨gEnter_consistent, ?_, classify_gEnter, spec_overlap_gEnter, by norm_num⟩
  rw [gEnter_eval]

/-- C1 (amended): for every route and zone whose verdict is Intersects,
the overlap percentage equals
`min(100, round(length(intersection(route, zone.BUFFEREDPolygon)) /
effectiveRouteLength * 100, 1 decimal))` — the intersection length is
measured against the buffered polygon, not the raw one. -/
theorem C1_intersects_overlap_uses_buffered (g : PairGeom) (p : ℚ)
    (h : classifyPair g = some (ConflictType.intersects, p)) :
    p = min (pyRound1 (g.interBufLength / effectiveRouteLength g * 100)) 100 := by
  unfold classifyPair at h
  dsimp only at h
  split at h
  case isTrue =>
    split at h
    case isTrue => simp at h
    case isFalse =>
      split at h
      case isTrue => simp at h
      case isFalse =>
        simp only [Option.some.injEq, Prod.mk.injEq] at h
        rw [← h.2]
        rfl
  case isFalse => simp at h

/-- C1 (witness for the amended theorem): instantiated on the entering
scene, where the buffered-polygon formula indeed gives the reported 50. -/
theorem C1_amended_witness :
    (50 : ℚ) = min (pyRound1 (gEnter.interBufLength / effectiveRouteLength gEnter * 100)) 100 :=
  C1_intersects_overlap_uses_buffered gEnter 50 classify_gEnter

/-- C2 (counterexample): a route whose verdict against the new zone is
BufferOnly (it touches only the buffered polygon, not the raw polygon)
nevertheless generates a notification draft in the zone-creation
fan-out — the draft is labeled `intersects` because the fan-out's
intersection test runs against the buffered polygon. -/
theorem C2_counterexample :
    gBufOnly.Consistent ∧
    classifyPair gBufOnly = some (ConflictType.buffer, 50) ∧
    routeBufOnly.geom = Except.ok gBufOnly ∧
    draftsForRoute routeBufOnly ≠ [] :=
  ⟨gBufOnly_consistent, classify_gBufOnly, rfl, by rw [drafts_routeBufOnly]; simp⟩

/-- C2 (amended): in zone-creation fan-out, a route generates at least
one draft iff it is contained in the zone (raw or buffered) OR
intersects the zone's BUFFERED polygon, and its recipient set (owner
unless anonymous, plus favoriters) is non-empty.  In particular a
BufferOnly route does generate drafts, labeled `intersects`. -/
theorem C2_drafts_iff_buffered_conflict (r : RouteInfo) (g : PairGeom)
    (h : r.geom = Except.ok g) :
    draftsForRoute r ≠ [] ↔
      ((g.rawContainsRoute || g.bufContainsRoute || g.routeIntersectsBuf) = true ∧
        recipients r ≠ []) := by
  unfold draftsForRoute
  rw [h]
  dsimp only
  by_cases hc : (g.rawContainsRoute || g.bufContainsRoute || g.routeIntersectsBuf) = true
  · rw [if_pos hc]
    simp [hc, List.map_eq_nil_iff]
  · rw [if_neg hc]
    simp [hc]

/-- C2 (witness for the amended theorem): the buffer-only route with a
non-anonymous owner does receive a draft. -/
theorem C2_amended_witness : draftsForRoute routeBufOnly ≠ [] :=
  (C2_drafts_iff_buffered_conflict routeBufOnly gBufOnly rfl).mpr
    ⟨by rw [gBufOnly_eval]; rfl, by
      simp only [recipients, routeBufOnly]
      rw [if_neg (by decide : ¬("u1" = "anonymous"))]
      simp⟩

/-- C3: whenever the route is fully contained in the zone's raw polygon
or in its buffered polygon, the classifier returns verdict `contained`
with overlap exactly 100, short-circuiting the Intersects/BufferOnly
overlap computation. -/
theorem C3_contained_precedence (g : PairGeom)
    (h : (g.rawContainsRoute || g.bufContainsRoute) = true) :
    classifyPair g = some (ConflictType.contained, 100) := by
  unfold classifyPair
  simp [h]

/-- C3 (witness): the fully inside route. -/
theorem C3_witness :
    (gInside.rawContainsRoute || gInside.bufContainsRoute) = true ∧
    classifyPair gInside = some (ConflictType.contained, 100) :=
  ⟨by rw [gInside_eval]; rfl, C3_contained_precedence gInside (by rw [gInside_eval]; rfl)⟩

/-- C5 (counterexample): for an anonymous upload the fan-out produces
zero drafts, but the conflict check is NOT computed — the background
task is never started (first component `false`), contradicting the
claim that the check still runs with only the fan-out a no-op. -/
theorem C5_counterexample :
    (uploadRouteFanout none [Except.ok gEnter]).2 = [] ∧
    (uploadRouteFanout none [Except.ok gEnter]).1 = false ∧
    ¬((uploadRouteFanout none [Except.ok gEnter]).1 = true) := by
  refine ⟨rfl, rfl, ?_⟩
  intro h
  simp [uploadRouteFanout] at h

/-- C5 (amended): an anonymous upload produces zero notification drafts
because the conflict-check task is skipped entirely (never started),
while an upload by an authenticated non-anonymous owner does start the
check. -/
theorem C5_anonymous_skips_check (zs : List (Except String PairGeom)) :
    uploadRouteFanout none zs = (false, []) ∧
    ∀ uid : String, uid ≠ "anonymous" → (uploadRouteFanout (some uid) zs).1 = true := by
  refine ⟨rfl, fun uid h => ?_⟩
  simp [uploadRouteFanout, h]

/-- C5 (witness for the amended theorem). -/
theorem C5_amended_witness :
    uploadRouteFanout none [Except.ok gEnter] = (false, []) ∧
    (uploadRouteFanout (some "u1") [Except.ok gEnter]).1 = true :=
  ⟨(C5_anonymous_skips_check [Except.ok gEnter]).1,
    (C5_anonymous_skips_check [Except.ok gEnter]).2 "u1" (by decide)⟩

/-- C6: classification of a degenerate route never divides by zero —
the denominator falls back to 1 — and for every consistent pair the
reported overlap percentage is a whole number of tenths (one decimal
place) in the closed interval [0, 100]. -/
theorem C6_degenerate_guard_and_range (g : PairGeom) (hc : g.Consistent) :
    (g.routeLength = 0 → effectiveRouteLength g = 1) ∧
    ∀ t p, classifyPair g = some (t, p) →
      0 ≤ p ∧ p ≤ 100 ∧ ∃ n : ℤ, p = (n : ℚ) / 10 := by
  obtain ⟨-, -, hb0, -, -, -, -, -, -, -, -, -⟩ := hc
  constructor
  · intro h
    unfold effectiveRouteLength
    rw [h]
    norm_num
  · intro t p h
    have hrange : 0 ≤ overlapPct g.interBufLength (effectiveRouteLength g) ∧
        overlapPct g.interBufLength (effectiveRouteLength g) ≤ 100 ∧
        ∃ n : ℤ, overlapPct g.interBufLength (effectiveRouteLength g) = (n : ℚ) / 10 :=
      ⟨overlapPct_nonneg _ _ hb0 (effectiveRouteLength_pos g),
        overlapPct_le_100 _ _, overlapPct_tenth _ _⟩
    unfold classifyPair at h
    dsimp only at h
    split at h
    case isTrue =>
      split at h
      case isTrue =>
        simp only [Option.some.injEq, Prod.mk.injEq] at h
        refine ⟨?_, ?_, 1000, ?_⟩ <;> rw [← h.2] <;> norm_num
      case isFalse =>
        split at h <;>
        · simp only [Option.some.injEq, Prod.mk.injEq] at h
          rw [← h.2]
          exact hrange
    case isFalse => exact Option.noConfusion h

/-- C6 (witness): the degenerate two-coincident-point route — the
division guard fires and the contained verdict's overlap 100 is a
number of tenths in [0, 100]. -/
theorem C6_witness :
    effectiveRouteLength gDegen = 1 ∧
    (0 ≤ (100 : ℚ) ∧ (100 : ℚ) ≤ 100 ∧ ∃ n : ℤ, (100 : ℚ) = (n : ℚ) / 10) :=
  ⟨(C6_degenerate_guard_and_range gDegen gDegen_consistent).1 (by rw [gDegen_eval]),
    (C6_degenerate_guard_and_range gDegen gDegen_consistent).2
      ConflictType.contained 100 classify_gDegen⟩

/-- C7: a zone is returned by the active-zone selection iff it is in
the input set and its interval covers the instant, under lexicographic
comparison of the timestamp strings. -/
theorem C7_activeAt_mem (zones : List ZoneRec) (instant : String) (z : ZoneRec) :
    z ∈ activeAt zones instant ↔
      z ∈ zones ∧ z.start_time ≤ instant ∧ instant ≤ z.end_time := by
  simp [activeAt, List.mem_filter, and_assoc]

/-- C8: when the buffering kernel raises on a polygon, the zone buffer
builder returns the raw input polygon unchanged instead of propagating
the error. -/
theorem C8_buffer_fallback {α : Type} (bufferKernel : α → ℚ → Except String α)
    (geometry : α) (buffer_meters : ℚ) (e : String)
    (h : bufferKernel geometry (buffer_meters / 111320) = Except.error e) :
    compute_buffer bufferKernel geometry buffer_meters = geometry := by
  unfold compute_buffer
  rw [h]

/-- A buffering kernel that always raises, modelling a malformed-geometry
failure. -/
def failingKernel : Rect → ℚ → Except String Rect :=
  fun _ _ => Except.error "TopologyException"

/-- C8 (witness): buffering `rect0` by 200 m with a raising kernel
returns `rect0` itself. -/
theorem C8_witness :
    failingKernel rect0 (200 / 111320) = Except.error "TopologyException" ∧
    compute_buffer failingKernel rect0 200 = rect0 :=
  ⟨rfl, C8_buffer_fallback failingKernel rect0 200 "TopologyException" rfl⟩

/-- C9: in every batch run — the on-demand conflicts loop, zone-creation
fan-out, and route-upload fan-out — a pair whose geometry evaluation
raises contributes no verdict and no draft, and every other pair of the
batch is still processed. -/
theorem C9_error_isolation :
    (∀ (xs ys : List (Except String PairGeom)) (e : String),
      check_route_against_zones (xs ++ Except.error e :: ys) =
        check_route_against_zones xs ++ check_route_against_zones ys) ∧
    (∀ (xs ys : List RouteInfo) (owner : String) (favs : List String) (e : String),
      check_routes_against_new_zone (xs ++ (⟨owner, favs, Except.error e⟩ : RouteInfo) :: ys) =
        check_routes_against_new_zone xs ++ check_routes_against_new_zone ys) ∧
    (∀ (uid : String) (xs ys : List (Except String PairGeom)) (e : String),
      check_uploaded_route_against_zones uid (xs ++ Except.error e :: ys) =
        check_uploaded_route_against_zones uid xs ++
          check_uploaded_route_against_zones uid ys) := by
  refine ⟨fun xs ys e => ?_, fun xs ys owner favs e => ?_, fun uid xs ys e => ?_⟩
  · simp [check_route_against_zones, List.flatMap_append, List.flatMap_cons, conflictsOfZone]
  · simp [check_routes_against_new_zone, List.flatMap_append, List.flatMap_cons, draftsForRoute]
  · simp [check_uploaded_route_against_zones, List.flatMap_append, List.flatMap_cons,
      uploadDraftForZone]

/-- C10: the `intersects` field of the on-demand check response is true
exactly when the returned conflicts list is non-empty — in particular
it is true when the only conflict is a BufferOnly one, as the concrete
buffer-only scene shows. -/
theorem C10_intersects_iff_conflicts :
    (∀ zs : List (Except String PairGeom),
      ((check_intersection zs).intersects = true ↔ (check_intersection zs).zones ≠ [])) ∧
    (check_intersection [Except.ok gBufOnly]).zones = [⟨ConflictType.buffer, 50⟩] ∧
    (check_intersection [Except.ok gBufOnly]).intersects = true := by
  refine ⟨fun zs => ?_, ?_, ?_⟩
  · unfold check_intersection
    by_cases hz : zs.isEmpty
    · rw [if_pos hz]
      simp
    · rw [if_neg hz]
      dsimp only
      simp [List.isEmpty_iff]
  · unfold check_intersection
    rw [if_neg (by simp)]
    dsimp only
    simp [check_route_against_zones, conflictsOfZone, classify_gBufOnly]
  · unfold check_intersection
    rw [if_neg (by simp)]
    dsimp only
    simp [check_route_against_zones, conflictsOfZone, classify_gBufOnly]

/-- C4: the on-demand check's summary message is selected by the
worst-case classification among the returned conflicts, with precedence
Contained > Intersects > BufferOnly > safe: CRITICAL iff some conflict
is `contained`; else WARNING iff some conflict is `intersects`; else
CAUTION iff a (necessarily buffer-only) conflict remains; else one of
the two safe messages, exactly when there is no conflict at all. -/
theorem C4_summary_worst_case (zs : List (Except String PairGeom)) :
    ((check_intersection zs).safe_message = criticalMsg ↔
      ∃ c ∈ (check_intersection zs).zones, c.conflict_type = ConflictType.contained) ∧
    ((check_intersection zs).safe_message = warningMsg ↔
      ((¬∃ c ∈ (check_intersection zs).zones, c.conflict_type = ConflictType.contained) ∧
        ∃ c ∈ (check_intersection zs).zones, c.conflict_type = ConflictType.intersects)) ∧
    ((check_intersection zs).safe_message = cautionMsg ↔
      ((¬∃ c ∈ (check_intersection zs).zones, c.conflict_type = ConflictType.contained) ∧
        (¬∃ c ∈ (check_intersection zs).zones, c.conflict_type = ConflictType.intersects) ∧
        (check_intersection zs).zones ≠ [])) ∧
    (((check_intersection zs).safe_message = safeMsg ∨
      (check_intersection zs).safe_message = noZonesMsg) ↔
      (check_intersection zs).zones = []) := by
  have dnc : noZonesMsg ≠ criticalMsg := by decide
  have dnw : noZonesMsg ≠ warningMsg := by decide
  have dnx : noZonesMsg ≠ cautionMsg := by decide
  have dcw : criticalMsg ≠ warningMsg := by decide
  have dcx : criticalMsg ≠ cautionMsg := by decide
  have dcs : criticalMsg ≠ safeMsg := by decide
  have dcn : criticalMsg ≠ noZonesMsg := by decide
  have dwc : warningMsg ≠ criticalMsg := by decide
  have dwx : warningMsg ≠ cautionMsg := by decide
  have dws : warningMsg ≠ safeMsg := by decide
  have dwn : warningMsg ≠ noZonesMsg := by decide
  have dxc : cautionMsg ≠ criticalMsg := by decide
  have dxw : cautionMsg ≠ warningMsg := by decide
  have dxs : cautionMsg ≠ safeMsg := by decide
  have dxn : cautionMsg ≠ noZonesMsg := by decide
  have dsc : safeMsg ≠ criticalMsg := by decide
  have dsw : safeMsg ≠ warningMsg := by decide
  have dsx : safeMsg ≠ cautionMsg := by decide
  unfold check_intersection
  by_cases hz : zs.isEmpty
  · rw [if_pos hz]
    refine ⟨?_, ?_, ?_, ?_⟩ <;> simp [dnc, dnw, dnx]
  · rw [if_neg hz]
    dsimp only
    by_cases h1 : (check_route_against_zones zs).any
        (fun c => decide (c.conflict_type = ConflictType.contained)) = true
    · rw [if_pos h1]
      simp only [List.any_eq_true, decide_eq_true_eq] at h1
      have hne : check_route_against_zones zs ≠ [] := by
        rcases h1 with ⟨c, hc, -⟩
        exact List.ne_nil_of_mem hc
      refine ⟨?_, ?_, ?_, ?_⟩ <;> simp [h1, hne, dcw, dcx, dcs, dcn]
    · rw [if_neg h1]
      simp only [List.any_eq_true, decide_eq_true_eq, not_exists] at h1
      by_cases h2 : (check_route_against_zones zs).any
          (fun c => decide (c.conflict_type = ConflictType.intersects)) = true
      · rw [if_pos h2]
        simp only [List.any_eq_true, decide_eq_true_eq] at h2
        have hne : check_route_against_zones zs ≠ [] := by
          rcases h2 with ⟨c, hc, -⟩
          exact List.ne_nil_of_mem hc
        refine ⟨?_, ?_, ?_, ?_⟩ <;> simp [h1, h2, hne, dwc, dwx, dws, dwn]
      · rw [if_neg h2]
        simp only [List.any_eq_true, decide_eq_true_eq, not_exists] at h2
        by_cases h3 : (check_route_against_zones zs).isEmpty = true
        · have h3' : check_route_against_zones zs = [] := List.isEmpty_iff.mp h3
          rw [if_neg (by simp [h3])]
          refine ⟨?_, ?_, ?_, ?_⟩ <;> simp [h3', dsc, dsw, dsx]
        · have h3' : check_route_against_zones zs ≠ [] := by
            intro hcontra
            exact h3 (by simp [hcontra])
          rw [if_pos (by simp [Bool.not_eq_true] at h3 ⊢; simp [h3])]
          refine ⟨?_, ?_, ?_, ?_⟩ <;> simp [h1, h2, h3', dxc, dxw, dxs, dxn]
